import Mathlib

/-
Verification of the SelectCommon remote-paginated select widget
(src/SelectCommon.vue) via a shallow embedding of its script logic.

Modelling notes:
- JS values of type string|number are modelled by the inductive `Val`.
- The injected `fetchData` prop is modelled as a pure function
  `FetchParams -> Except String Response`; a rejected promise or a thrown
  exception is the `Except.error` case, a resolved promise the `Except.ok`
  case.  Awaiting is immediate (the component performs no interleaving that
  the claims depend on).
- The component's reactive refs form `WidgetState`; `World` additionally
  records the observable effects: the log of calls made to `fetchData`
  (so that "fetchData is not invoked" is expressible) and the list of
  toast notifications shown via `message(...)`.
- DOM concerns (attaching/removing the scroll listener, resetting
  scrollTop) are outside the state the claims quantify over and are not
  modelled; the scroll event carries only the three numeric fields the
  handler reads.
- Debouncing is a pure timing wrapper around the handlers; the embedded
  `remoteSearch` and `handleScroll` are the debounced bodies.
-/

namespace SelectCommon

/-- JS string-or-number values, as used for option values and item ids. -/
inductive Val where
  | s : String → Val
  | n : Int → Val
deriving DecidableEq, Repr

/-- An element of `res.items` as consumed by `getData`: `{id, name}`. -/
structure Item where
  id : Val
  name : String
deriving DecidableEq, Repr

/-- The resolved value of `props.fetchData(params)`: `{items, error?}`.
`items` is `none` when the field is absent/null (the source guards with
`res.items?.map ... || []`); `error` is the truthiness of `res.error`. -/
structure Response where
  error : Bool
  items : Option (List Item)
deriving DecidableEq, Repr

/-- An entry of `itemList`: `{label, value}`. -/
structure Opt where
  label : String
  value : Val
deriving DecidableEq, Repr

/-- The parameter object passed to `fetchData`: the spread of `props.param`
(kept opaque as a key-value list) plus `skipCount`, `MaxResultCount` and an
optional `keyword`. -/
structure FetchParams where
  base : List (String × String)
  skipCount : Nat
  MaxResultCount : Nat
  keyword : Option String
deriving DecidableEq, Repr

/-- The component's reactive refs: `value` (the internal mirror of
`modelValue`), `itemList`, `totalItems`, `loading`, `currentPage`,
`hasMore`. -/
structure WidgetState where
  value : Val
  itemList : List Opt
  totalItems : Nat
  loading : Bool
  currentPage : Nat
  hasMore : Bool
deriving DecidableEq, Repr

/-- The component state together with its observable effects: the sequence
of parameter objects passed to `props.fetchData`, and the sequence of error
payloads handed to the `message` toast utility. -/
structure World where
  st : WidgetState
  fetchLog : List FetchParams
  toasts : List String
deriving DecidableEq, Repr

/-- JS truthiness of a string-or-number value: the empty string and the
number 0 are falsy. -/
def truthyVal : Val → Bool
  | Val.s v => decide (v ≠ "")
  | Val.n v => decide (v ≠ 0)

/-- Shallow embedding of `getData(params, isLoadMore)`:
guard `if (!hasMore.value && isLoadMore) return;`, then
`loading = true`, the awaited call to `fetchData` (logged in `fetchLog`),
the try body (map items to options, append or replace, re-pin the
`(name, value)` entry when absent, set `hasMore` and `totalItems`),
the error-flag branch and the catch branch (clear the list, and in the
catch branch only, show a toast), and the finally block `loading = false`.
The function is total: no exception propagates to the caller. -/
def getData (name : String) (fetch : FetchParams → Except String Response)
    (w : World) (params : FetchParams) (isLoadMore : Bool) : World :=
  if w.st.hasMore = false ∧ isLoadMore = true then w
  else
    let w1 : World :=
      { w with st := { w.st with loading := true }, fetchLog := w.fetchLog ++ [params] }
    let w2 : World :=
      match fetch params with
      | Except.ok res =>
        if res.error = false then
          let newItems := (res.items.getD []).map (fun it => Opt.mk it.name it.id)
          let list1 := if isLoadMore then w1.st.itemList ++ newItems else newItems
          let list2 :=
            if name ≠ "" ∧ truthyVal w1.st.value = true then
              if (list1.find? (fun o => decide (o.value = w1.st.value))).isSome then list1
              else Opt.mk name w1.st.value :: list1
            else list1
          { w1 with st := { w1.st with
              itemList := list2,
              hasMore := decide (newItems.length = params.MaxResultCount),
              totalItems := list2.length } }
        else
          { w1 with st := { w1.st with itemList := [], hasMore := false, totalItems := 0 } }
      | Except.error e =>
        { w1 with
          st := { w1.st with itemList := [], hasMore := false, totalItems := 0 },
          toasts := w1.toasts ++ [e] }
    { w2 with st := { w2.st with loading := false } }

/-- Shallow embedding of the body of the debounced `remoteSearch(query)`:
reset `currentPage` to 1 and `hasMore` to true, then load with
`{...param, skipCount: 1, MaxResultCount: 10, keyword: query}` when the
query is truthy (non-empty), and without the `keyword` key otherwise. -/
def remoteSearch (name : String) (param : List (String × String))
    (fetch : FetchParams → Except String Response) (w : World) (query : String) : World :=
  let w1 : World := { w with st := { w.st with currentPage := 1, hasMore := true } }
  if query ≠ "" then
    getData name fetch w1
      { base := param, skipCount := 1, MaxResultCount := 10, keyword := some query } false
  else
    getData name fetch w1
      { base := param, skipCount := 1, MaxResultCount := 10, keyword := none } false

/-- Shallow embedding of `handleVisibleChange(visible)` restricted to its
state effects: on open, clear `itemList` and `totalItems`, reset `hasMore`
to true and `currentPage` to 1, then run the initial unfiltered load with
`{...param, skipCount: 1, MaxResultCount: 10}`; on close, no state change
(only the DOM scroll listener, which is not part of the modelled state). -/
def handleVisibleChange (name : String) (param : List (String × String))
    (fetch : FetchParams → Except String Response) (w : World) (visible : Bool) : World :=
  if visible then
    let w1 : World :=
      { w with st :=
          { w.st with itemList := [], totalItems := 0, hasMore := true, currentPage := 1 } }
    getData name fetch w1
      { base := param, skipCount := 1, MaxResultCount := 10, keyword := none } false
  else w

/-- The three fields of `event.target` read by the scroll handler. -/
structure ScrollEvt where
  scrollHeight : Nat
  scrollTop : Nat
  clientHeight : Nat
deriving DecidableEq, Repr

/-- Shallow embedding of the body of the debounced `handleScroll(event)`:
when `scrollHeight === scrollTop + clientHeight` and not loading and
`hasMore`, increment `currentPage` and load page `currentPage` (the new
value) with `append = true`. -/
def handleScroll (name : String) (param : List (String × String))
    (fetch : FetchParams → Except String Response) (w : World) (ev : ScrollEvt) : World :=
  let bottom := decide (ev.scrollHeight = ev.scrollTop + ev.clientHeight)
  if bottom = true ∧ w.st.loading = false ∧ w.st.hasMore = true then
    let w1 : World := { w with st := { w.st with currentPage := w.st.currentPage + 1 } }
    getData name fetch w1
      { base := param, skipCount := w1.st.currentPage, MaxResultCount := 10, keyword := none } true
  else w

/-- A fresh component state as after mount with an empty selection. -/
def w0 : World :=
  { st :=
      { value := Val.s "", itemList := [], totalItems := 0, loading := false,
        currentPage := 1, hasMore := true },
    fetchLog := [],
    toasts := [] }

/-- Unfiltered first-page parameters over an empty `param` prop. -/
def p0 : FetchParams :=
  { base := [], skipCount := 1, MaxResultCount := 10, keyword := none }

/-- The list `newItems` computed by `getData` from a response: each item
mapped to an option with label `item.name` and value `item.id`, or the
empty list when `res.items` is absent. -/
def newOptionsOf (res : Response) : List Opt :=
  (res.items.getD []).map (fun it => Opt.mk it.name it.id)

/-- The option list after the append-or-replace step of `getData`. -/
def mergedOptions (w : World) (res : Response) (isLoadMore : Bool) : List Opt :=
  if isLoadMore then w.st.itemList ++ newOptionsOf res else newOptionsOf res

/-- The name-pinning step of `getData`: when `name` and the current value
are truthy and no entry of the list carries the current value, prepend the
pinned `(name, value)` entry. -/
def pinApplied (name : String) (v : Val) (l : List Opt) : List Opt :=
  if name ≠ "" ∧ truthyVal v = true then
    if (l.find? (fun o => decide (o.value = v))).isSome then l
    else Opt.mk name v :: l
  else l

/-- Closed form of a successful `getData` run (fetch resolves, no error
flag): the merged and pinned list is installed, `hasMore` compares the
fetched count with `MaxResultCount`, `totalItems` is the new length,
`loading` ends false, one fetch is logged, and no toast is shown. -/
theorem getData_ok (name : String) (fetch : FetchParams → Except String Response)
    (w : World) (params : FetchParams) (isLoadMore : Bool) (res : Response)
    (hg : ¬ (w.st.hasMore = false ∧ isLoadMore = true))
    (hf : fetch params = Except.ok res) (he : res.error = false) :
    getData name fetch w params isLoadMore =
      { st :=
          { value := w.st.value,
            itemList := pinApplied name w.st.value (mergedOptions w res isLoadMore),
            totalItems := (pinApplied name w.st.value (mergedOptions w res isLoadMore)).length,
            loading := false,
            currentPage := w.st.currentPage,
            hasMore := decide ((newOptionsOf res).length = params.MaxResultCount) },
        fetchLog := w.fetchLog ++ [params],
        toasts := w.toasts } := by
  unfold getData
  rw [if_neg hg, hf]
  simp only [he]
  simp [newOptionsOf, mergedOptions, pinApplied]

/-- Closed form of a `getData` run whose response carries the error flag:
the list is cleared, `hasMore` is false, `totalItems` is 0, `loading` ends
false, one fetch is logged, and no toast is shown. -/
theorem getData_errFlag (name : String) (fetch : FetchParams → Except String Response)
    (w : World) (params : FetchParams) (isLoadMore : Bool) (res : Response)
    (hg : ¬ (w.st.hasMore = false ∧ isLoadMore = true))
    (hf : fetch params = Except.ok res) (he : res.error = true) :
    getData name fetch w params isLoadMore =
      { st :=
          { value := w.st.value,
            itemList := [],
            totalItems := 0,
            loading := false,
            currentPage := w.st.currentPage,
            hasMore := false },
        fetchLog := w.fetchLog ++ [params],
        toasts := w.toasts } := by
  unfold getData
  rw [if_neg hg, hf]
  simp [he]

/-- Closed form of a `getData` run whose fetch rejects or throws: the list
is cleared, `hasMore` is false, `totalItems` is 0, `loading` ends false,
one fetch is logged, and the error payload is shown as a toast. -/
theorem getData_reject (name : String) (fetch : FetchParams → Except String Response)
    (w : World) (params : FetchParams) (isLoadMore : Bool) (e : String)
    (hg : ¬ (w.st.hasMore = false ∧ isLoadMore = true))
    (hf : fetch params = Except.error e) :
    getData name fetch w params isLoadMore =
      { st :=
          { value := w.st.value,
            itemList := [],
            totalItems := 0,
            loading := false,
            currentPage := w.st.currentPage,
            hasMore := false },
        fetchLog := w.fetchLog ++ [params],
        toasts := w.toasts ++ [e] } := by
  unfold getData
  rw [if_neg hg, hf]

/-- Mapping an option list produced from items back to values gives the
item ids. -/
theorem map_value_newOptionsOf (res : Response) :
    (newOptionsOf res).map Opt.value = (res.items.getD []).map Item.id := by
  simp [newOptionsOf, List.map_map]

/-- The pinning step preserves freedom from duplicate values: it either
leaves the list alone or prepends a value that the find-check has just
shown absent. -/
theorem pinApplied_nodup (name : String) (v : Val) (l : List Opt)
    (h : (l.map Opt.value).Nodup) : ((pinApplied name v l).map Opt.value).Nodup := by
  unfold pinApplied
  split
  · rename_i hc
    split
    · exact h
    · rename_i hfind
      have hnone : l.find? (fun o => decide (o.value = v)) = none := by
        cases hfo : l.find? (fun o => decide (o.value = v)) with
        | none => rfl
        | some x => exact absurd (by simp [hfo]) hfind
      have habs := List.find?_eq_none.mp hnone
      simp only [List.map_cons, List.nodup_cons]
      refine ⟨fun hmem => ?_, h⟩
      obtain ⟨o, ho, hov⟩ := List.mem_map.mp hmem
      have hno : ¬ (o.value = v) := by simpa using habs o ho
      exact hno hov
  · exact h

/-- A fetch function returning two items with distinct ids. -/
def fetch2 : FetchParams → Except String Response :=
  fun _ => Except.ok (Response.mk false (some [Item.mk (Val.n 1) "a", Item.mk (Val.n 2) "b"]))

/-- A fetch function returning two items with the same id. -/
def fetchDup : FetchParams → Except String Response :=
  fun _ => Except.ok (Response.mk false (some [Item.mk (Val.n 1) "a", Item.mk (Val.n 1) "b"]))

/-- C1 counterexample: a successful replacing load whose fetched page
contains two items with the same id yields an options list with two
entries of the same value — `getData` performs no deduplication of
fetched items. -/
theorem getData_dup_values_cex :
    ¬ (((getData "" fetchDup w0 p0 false).st.itemList.map Opt.value).Nodup) := by
  decide

/-- C1 (amended): for every successful replacing (non-append) load whose
fetched items carry pairwise-distinct ids, the resulting options list
contains no two entries with the same value (the pinned entry, when added,
is only added after the find-check showed its value absent). -/
theorem getData_replace_nodup (name : String) (fetch : FetchParams → Except String Response)
    (w : World) (params : FetchParams) (res : Response)
    (hf : fetch params = Except.ok res) (he : res.error = false)
    (hnd : ((res.items.getD []).map Item.id).Nodup) :
    (((getData name fetch w params false).st.itemList).map Opt.value).Nodup := by
  rw [getData_ok name fetch w params false res (by simp) hf he]
  refine pinApplied_nodup name w.st.value _ ?_
  unfold mergedOptions
  simp only [if_neg Bool.false_ne_true]
  rw [map_value_newOptionsOf]
  exact hnd

/-- C1 witness: the amended theorem applied to a concrete replacing load
with two distinct ids. -/
theorem getData_replace_nodup_witness :
    (((getData "" fetch2 w0 p0 false).st.itemList).map Opt.value).Nodup :=
  getData_replace_nodup "" fetch2 w0 p0
    (Response.mk false (some [Item.mk (Val.n 1) "a", Item.mk (Val.n 2) "b"]))
    rfl rfl (by decide)

/-- A fetch function resolving with the API-level error flag set. -/
def fetchFlag : FetchParams → Except String Response :=
  fun _ => Except.ok (Response.mk true none)

/-- A fetch function that rejects (throws) with payload "boom". -/
def fetchBoom : FetchParams → Except String Response :=
  fun _ => Except.error "boom"

/-- C2 counterexample: the two failure kinds are not handled identically —
an error-flagged response empties the list but shows no notification,
while a rejected fetch shows one. -/
theorem getData_failure_not_identical_cex :
    (getData "" fetchFlag w0 p0 false).st.itemList = [] ∧
    (getData "" fetchFlag w0 p0 false).toasts = [] ∧
    (getData "" fetchBoom w0 p0 false).toasts = ["boom"] := by
  decide

/-- C2 (amended): a rejected fetch and an error-flagged response both
empty the options list, set `hasMore` to false and issue exactly one fetch
(no retry); but only the rejected fetch shows a user-visible error
notification — the error-flagged response shows none. -/
theorem getData_failure_cases (name : String) (fetch : FetchParams → Except String Response)
    (w : World) (params : FetchParams) (isLoadMore : Bool)
    (hg : ¬ (w.st.hasMore = false ∧ isLoadMore = true)) :
    (∀ res, fetch params = Except.ok res → res.error = true →
      (getData name fetch w params isLoadMore).st.itemList = [] ∧
      (getData name fetch w params isLoadMore).st.hasMore = false ∧
      (getData name fetch w params isLoadMore).fetchLog = w.fetchLog ++ [params] ∧
      (getData name fetch w params isLoadMore).toasts = w.toasts) ∧
    (∀ e, fetch params = Except.error e →
      (getData name fetch w params isLoadMore).st.itemList = [] ∧
      (getData name fetch w params isLoadMore).st.hasMore = false ∧
      (getData name fetch w params isLoadMore).fetchLog = w.fetchLog ++ [params] ∧
      (getData name fetch w params isLoadMore).toasts = w.toasts ++ [e]) := by
  constructor
  · intro res hf he
    rw [getData_errFlag name fetch w params isLoadMore res hg hf he]
    exact ⟨rfl, rfl, rfl, rfl⟩
  · intro e hf
    rw [getData_reject name fetch w params isLoadMore e hg hf]
    exact ⟨rfl, rfl, rfl, rfl⟩

/-- C2 witness: the amended theorem applied at concrete error-flagged and
rejecting fetches. -/
theorem getData_failure_cases_witness :
    ((getData "" fetchFlag w0 p0 false).st.itemList = [] ∧
     (getData "" fetchFlag w0 p0 false).toasts = w0.toasts) ∧
    (getData "" fetchBoom w0 p0 false).toasts = w0.toasts ++ ["boom"] :=
  ⟨⟨((getData_failure_cases "" fetchFlag w0 p0 false (by decide)).1
        (Response.mk true none) rfl rfl).1,
    ((getData_failure_cases "" fetchFlag w0 p0 false (by decide)).1
        (Response.mk true none) rfl rfl).2.2.2⟩,
   ((getData_failure_cases "" fetchBoom w0 p0 false (by decide)).2 "boom" rfl).2.2.2⟩

/-- C3: the two failure kinds behave as specified — an error-flagged
response clears the options, sets `hasMore` to false and `totalItems` to
0 and shows no toast (and `getData` is a total function, so no exception
is thrown); a rejected fetch clears the options and shows a toast with
the error payload. -/
theorem getData_two_failure_kinds (name : String) (fetch : FetchParams → Except String Response)
    (w : World) (params : FetchParams) (isLoadMore : Bool)
    (hg : ¬ (w.st.hasMore = false ∧ isLoadMore = true)) :
    (∀ res, fetch params = Except.ok res → res.error = true →
      (getData name fetch w params isLoadMore).st.itemList = [] ∧
      (getData name fetch w params isLoadMore).st.hasMore = false ∧
      (getData name fetch w params isLoadMore).st.totalItems = 0 ∧
      (getData name fetch w params isLoadMore).toasts = w.toasts) ∧
    (∀ e, fetch params = Except.error e →
      (getData name fetch w params isLoadMore).st.itemList = [] ∧
      (getData name fetch w params isLoadMore).toasts = w.toasts ++ [e]) := by
  constructor
  · intro res hf he
    rw [getData_errFlag name fetch w params isLoadMore res hg hf he]
    exact ⟨rfl, rfl, rfl, rfl⟩
  · intro e hf
    rw [getData_reject name fetch w params isLoadMore e hg hf]
    exact ⟨rfl, rfl⟩

/-- C3 witness: the theorem applied at a concrete error-flagged fetch and
a concrete rejecting fetch, over a world with a prior option present. -/
theorem getData_two_failure_kinds_witness :
    ((getData "N" fetchFlag w0 p0 true).st.itemList = [] ∧
     (getData "N" fetchFlag w0 p0 true).toasts = w0.toasts) ∧
    ((getData "N" fetchBoom w0 p0 true).st.itemList = [] ∧
     (getData "N" fetchBoom w0 p0 true).toasts = w0.toasts ++ ["boom"]) :=
  ⟨⟨((getData_two_failure_kinds "N" fetchFlag w0 p0 true (by decide)).1
        (Response.mk true none) rfl rfl).1,
    ((getData_two_failure_kinds "N" fetchFlag w0 p0 true (by decide)).1
        (Response.mk true none) rfl rfl).2.2.2⟩,
   (getData_two_failure_kinds "N" fetchBoom w0 p0 true (by decide)).2 "boom" rfl⟩

/-- C4: after every successful load, `hasMore` is true exactly when the
number of items returned by that fetch equals the requested page size
`MaxResultCount`. -/
theorem getData_hasMore_iff (name : String) (fetch : FetchParams → Except String Response)
    (w : World) (params : FetchParams) (isLoadMore : Bool) (res : Response)
    (hg : ¬ (w.st.hasMore = false ∧ isLoadMore = true))
    (hf : fetch params = Except.ok res) (he : res.error = false) :
    ((getData name fetch w params isLoadMore).st.hasMore = true ↔
      (res.items.getD []).length = params.MaxResultCount) := by
  rw [getData_ok name fetch w params isLoadMore res hg hf he]
  simp [newOptionsOf]

/-- A page of exactly ten items, with ids 0 through 9. -/
def items10 : List Item := (List.range 10).map (fun i => Item.mk (Val.n i) "x")

/-- A fetch function returning a full page of ten items. -/
def fetch10 : FetchParams → Except String Response :=
  fun _ => Except.ok (Response.mk false (some items10))

/-- C4 witness: the theorem applied to a concrete full page of ten items
against a requested page size of ten. -/
theorem getData_hasMore_iff_witness :
    ((getData "" fetch10 w0 p0 false).st.hasMore = true ↔
      ((Response.mk false (some items10)).items.getD []).length = p0.MaxResultCount) :=
  getData_hasMore_iff "" fetch10 w0 p0 false (Response.mk false (some items10))
    (by decide) rfl rfl

/-- C5: opening the dropdown first fully resets the state — `itemList`
emptied, `totalItems` zeroed, `hasMore` set true, `currentPage` set to 1 —
and then runs the initial unfiltered load (skipCount 1, MaxResultCount 10,
no keyword). -/
theorem handleVisibleChange_resets_then_loads (name : String) (param : List (String × String))
    (fetch : FetchParams → Except String Response) (w : World) :
    handleVisibleChange name param fetch w true =
      getData name fetch
        { w with
          st := { w.st with itemList := [], totalItems := 0, hasMore := true, currentPage := 1 } }
        { base := param, skipCount := 1, MaxResultCount := 10, keyword := none } false := by
  rfl

/-- C6: whenever the scroll container is exactly at its bottom, no load is
in flight and `hasMore` holds, the page counter is incremented and a load
with `append = true` is issued whose `skipCount` is the incremented page
number. -/
theorem handleScroll_bottom_loads_next (name : String) (param : List (String × String))
    (fetch : FetchParams → Except String Response) (w : World) (ev : ScrollEvt)
    (hb : ev.scrollHeight = ev.scrollTop + ev.clientHeight)
    (hl : w.st.loading = false) (hm : w.st.hasMore = true) :
    handleScroll name param fetch w ev =
      getData name fetch
        { w with st := { w.st with currentPage := w.st.currentPage + 1 } }
        { base := param, skipCount := w.st.currentPage + 1, MaxResultCount := 10, keyword := none }
        true := by
  unfold handleScroll
  rw [if_pos ⟨decide_eq_true hb, hl, hm⟩]

/-- The world after opening the dropdown on a fresh component whose fetch
returns a full first page of ten items: `currentPage` is 1 and `hasMore`
is true. -/
def wPage1 : World := handleVisibleChange "" [] fetch10 w0 true

/-- C6 witness: after a first page of exactly the page size, a scroll
event at the bottom issues the page-2 append load with `skipCount = 2`. -/
theorem handleScroll_bottom_loads_next_witness :
    wPage1.st.currentPage + 1 = 2 ∧ wPage1.st.hasMore = true ∧
    handleScroll "" [] fetch10 wPage1 (ScrollEvt.mk 300 200 100) =
      getData "" fetch10
        { wPage1 with st := { wPage1.st with currentPage := wPage1.st.currentPage + 1 } }
        { base := [], skipCount := wPage1.st.currentPage + 1, MaxResultCount := 10,
          keyword := none }
        true :=
  ⟨by decide, by decide,
   handleScroll_bottom_loads_next "" [] fetch10 wPage1 (ScrollEvt.mk 300 200 100)
     (by decide) (by decide) (by decide)⟩

/-- A component state whose selected value mirror is the number 5. -/
def wSel5 : World :=
  { st :=
      { value := Val.n 5, itemList := [], totalItems := 0, loading := false,
        currentPage := 1, hasMore := true },
    fetchLog := [],
    toasts := [] }

/-- A fetch function serving ids 0 through 9 as page 1 and a single item
with id 11 as every later page. -/
def fetchC7 : FetchParams → Except String Response :=
  fun p =>
    if p.skipCount = 1 then Except.ok (Response.mk false (some items10))
    else Except.ok (Response.mk false (some [Item.mk (Val.n 11) "y"]))

/-- Page-2 parameters over an empty `param` prop. -/
def p2 : FetchParams :=
  { base := [], skipCount := 2, MaxResultCount := 10, keyword := none }

/-- C7 counterexample: an appending load whose fetched page contains no
item with the model value, but whose pre-existing options (from page 1) do
contain that value, does not get the pinned entry prepended — the code
checks the whole merged list, not just the fetched page. -/
theorem getData_pin_append_cex :
    (∀ it ∈ [Item.mk (Val.n 11) "y"], it.id ≠ Val.n 5) ∧
    ((getData "N" fetchC7 (getData "N" fetchC7 wSel5 p0 false) p2 true).st.itemList.head? ≠
      some (Opt.mk "N" (Val.n 5))) := by
  decide

/-- C7 (amended): for every successful load where `name` and the selected
value are both set (truthy) and no entry of the post-merge list — the
fetched page for a replacing load, the existing options followed by the
fetched page for an appending load — carries the selected value, the
pinned entry with label `name` and the selected value is prepended at
position 0. -/
theorem getData_pins_when_absent (name : String) (fetch : FetchParams → Except String Response)
    (w : World) (params : FetchParams) (isLoadMore : Bool) (res : Response)
    (hg : ¬ (w.st.hasMore = false ∧ isLoadMore = true))
    (hf : fetch params = Except.ok res) (he : res.error = false)
    (hname : name ≠ "") (hval : truthyVal w.st.value = true)
    (habs : ∀ o ∈ mergedOptions w res isLoadMore, o.value ≠ w.st.value) :
    (getData name fetch w params isLoadMore).st.itemList =
      Opt.mk name w.st.value :: mergedOptions w res isLoadMore := by
  rw [getData_ok name fetch w params isLoadMore res hg hf he]
  unfold pinApplied
  rw [if_pos ⟨hname, hval⟩]
  have hnone :
      (mergedOptions w res isLoadMore).find? (fun o => decide (o.value = w.st.value)) = none := by
    rw [List.find?_eq_none]
    intro o ho
    simpa using habs o ho
  rw [hnone]
  rfl

/-- A fetch function returning one item whose id differs from 5. -/
def fetchY : FetchParams → Except String Response :=
  fun _ => Except.ok (Response.mk false (some [Item.mk (Val.n 7) "y"]))

/-- C7 witness: the amended theorem at a concrete replacing load whose
page misses the selected value, so the pinned entry lands at position 0. -/
theorem getData_pins_when_absent_witness :
    (getData "N" fetchY wSel5 p0 false).st.itemList =
      Opt.mk "N" (Val.n 5) ::
        mergedOptions wSel5 (Response.mk false (some [Item.mk (Val.n 7) "y"])) false :=
  getData_pins_when_absent "N" fetchY wSel5 p0 false
    (Response.mk false (some [Item.mk (Val.n 7) "y"]))
    (by decide) rfl rfl (by decide) (by decide) (by decide)

/-- C8 counterexample: searching with the empty query issues a load whose
parameter object carries no `keyword` key at all, not `keyword` equal to
the (empty) query. -/
theorem remoteSearch_empty_query_cex :
    (remoteSearch "" [] fetch2 w0 "").fetchLog.map FetchParams.keyword = [none] ∧
    (none : Option String) ≠ some "" := by
  decide

/-- C8 (amended): for every search query, the search resets `currentPage`
to 1 and `hasMore` to true and issues one load with `skipCount` 1 and
`MaxResultCount` 10 over the `param` prop, whose `keyword` is the query
when the query is non-empty and absent when the query is empty. -/
theorem remoteSearch_resets_and_loads (name : String) (param : List (String × String))
    (fetch : FetchParams → Except String Response) (w : World) (query : String) :
    remoteSearch name param fetch w query =
      getData name fetch
        { w with st := { w.st with currentPage := 1, hasMore := true } }
        { base := param, skipCount := 1, MaxResultCount := 10,
          keyword := if query = "" then none else some query }
        false := by
  unfold remoteSearch
  by_cases hq : query = ""
  · simp [hq]
  · simp [hq]

/-- C9: the load operation is a total function (no exception reaches the
caller), and whenever it proceeds past its load-more guard — so on
success, on an error-flagged response and on a rejected fetch alike — the
`loading` flag ends false, mirroring the set-before-fetch and
reset-in-finally structure. -/
theorem getData_loading_false_after (name : String) (fetch : FetchParams → Except String Response)
    (w : World) (params : FetchParams) (isLoadMore : Bool)
    (hg : ¬ (w.st.hasMore = false ∧ isLoadMore = true)) :
    (getData name fetch w params isLoadMore).st.loading = false := by
  unfold getData
  rw [if_neg hg]

/-- C9 witness: the theorem at a concrete rejecting fetch, starting from a
world whose `loading` flag is not yet set. -/
theorem getData_loading_false_after_witness :
    (getData "" fetchBoom w0 p0 false).st.loading = false :=
  getData_loading_false_after "" fetchBoom w0 p0 false (by decide)

/-- A component state with no further pages available. -/
def wNoMore : World := { w0 with st := { w0.st with hasMore := false } }

/-- C10: calling the load operation with `append = true` while `hasMore`
is false is a complete no-op — the returned world equals the input world,
so no field of the state changes, `fetchLog` shows that `fetchData` was
never invoked, and no toast appears. -/
theorem getData_loadMore_noMore_noop (name : String) (fetch : FetchParams → Except String Response)
    (w : World) (params : FetchParams) (h : w.st.hasMore = false) :
    getData name fetch w params true = w := by
  unfold getData
  rw [if_pos ⟨h, rfl⟩]

/-- C10 witness: the theorem at a concrete exhausted state with a fetch
function that would reject if it were ever called. -/
theorem getData_loadMore_noMore_noop_witness :
    getData "" fetchBoom wNoMore p0 true = wNoMore :=
  getData_loadMore_noMore_noop "" fetchBoom wNoMore p0 rfl

end SelectCommon
